import Mathlib

/-!
Shallow embedding of `core/jni/android_view_InputChannel.cpp` (the JNI
lifecycle layer for Android InputChannel handles) together with proofs of
the specification's claims about it.

Modelling conventions:
* A `jlong` opaque reference is a `Nat`; `0` is the null/absent sentinel.
* The native heap of `NativeInputChannel` objects is a function
  `Nat → Option NativeInputChannel`; allocation hands out `nextPtr` and
  bumps it, so fresh pointers are nonzero whenever `1 ≤ nextPtr`.
* `jniThrowRuntimeException` sets a pending-exception slot carrying the
  message (JNI semantics: the function keeps running after the throw).
* The dispose callback (a C function pointer) and its `void*` context are
  represented by `Nat` identifiers; invocations are recorded in a log so
  that "the hook fired exactly once" is a statement about the log.
* The external Channel Primitive (`InputChannel` from libinput, not part
  of this repository) is modelled from the spec where its behaviour
  matters: a name, an identity token and a transport descriptor, with
  duplicate / parcel codec as the spec describes them.
-/

namespace AndroidViewInputChannel

/-- The external Channel Primitive: a named connected transport endpoint.
`name` is the diagnostic name, `token` the opaque connection identity
token (`getConnectionToken`), `fd` the OS-level transport resource
descriptor. -/
structure InputChannel where
  name : String
  token : Nat
  fd : Nat
deriving DecidableEq, Repr

/-- The native handle object. Mirrors the C++ class field for field:
`mInputChannel` (an `sp<InputChannel>`, nullable), `mDisposeCallback`
(a nullable C function pointer, as an identifier) and `mDisposeData`
(a `void*` context, as a `Nat`). -/
structure NativeInputChannel where
  mInputChannel : Option InputChannel
  mDisposeCallback : Option Nat
  mDisposeData : Nat
deriving DecidableEq, Repr

/-- The C++ constructor `NativeInputChannel(inputChannel)`: initializes
`mInputChannel` and sets `mDisposeCallback` to null. The source leaves
`mDisposeData` uninitialized; it is unobservable while `mDisposeCallback`
is null (both writers set it before any read), so the model fixes the
initial contents at `0`. -/
def NativeInputChannel.create (inputChannel : Option InputChannel) : NativeInputChannel :=
  ⟨inputChannel, none, 0⟩

/-- `NativeInputChannel::setDisposeCallback`: overwrite both slots. -/
def NativeInputChannel.setDisposeCallback (n : NativeInputChannel)
    (callback : Nat) (data : Nat) : NativeInputChannel :=
  { n with mDisposeCallback := some callback, mDisposeData := data }

/-- One recorded invocation of a dispose callback: which callback ran,
the `mInputChannel` value it was handed (still the handle's reference at
invocation time), and its context datum. -/
structure HookInvocation where
  callback : Nat
  channel : Option InputChannel
  data : Nat
deriving DecidableEq, Repr

/-- `NativeInputChannel::invokeAndRemoveDisposeCallback`: if a callback is
set, invoke it (the invocation record carries the pre-clear field values,
as the call happens before the clearing) and null out both the callback
and the data slot; otherwise do nothing. Returns the updated object and
the list of invocations performed. -/
def NativeInputChannel.invokeAndRemoveDisposeCallback (n : NativeInputChannel) :
    NativeInputChannel × List HookInvocation :=
  match n.mDisposeCallback with
  | some cb =>
      ({ n with mDisposeCallback := none, mDisposeData := 0 },
       [⟨cb, n.mInputChannel, n.mDisposeData⟩])
  | none => (n, [])

/-- The ambient JNI/native state: the heap of `NativeInputChannel`
objects, the allocator cursor, the pending Java exception (message of the
`RuntimeException`, if one was thrown), and the log of dispose-callback
invocations. -/
structure JniState where
  heap : Nat → Option NativeInputChannel
  nextPtr : Nat
  pendingException : Option String
  hookLog : List HookInvocation

theorem JniState.ext_iff {s t : JniState} :
    s = t ↔ s.heap = t.heap ∧ s.nextPtr = t.nextPtr ∧
      s.pendingException = t.pendingException ∧ s.hookLog = t.hookLog := by
  constructor
  · rintro rfl; exact ⟨rfl, rfl, rfl, rfl⟩
  · cases s; cases t; rintro ⟨rfl, rfl, rfl, rfl⟩; rfl

/-- `reinterpret_cast<NativeInputChannel*>(ptr)` followed by the null
check the source performs: `0` is the null pointer; a nonzero reference
resolves through the heap. (A nonzero pointer not in the heap is a
dangling pointer — undefined behaviour in the source; the model returns
`none` there and no claim exercises it.) -/
def reinterpretCast (s : JniState) (ptr : Nat) : Option NativeInputChannel :=
  if ptr = 0 then none else s.heap ptr

/-- Overwrite the object a live pointer refers to. -/
def JniState.update (s : JniState) (p : Nat) (n : NativeInputChannel) : JniState :=
  { s with heap := fun q => if q = p then some n else s.heap q }

/-- `new NativeInputChannel(...)` / `make_unique` + `release`: allocate a
fresh native object and return its pointer. -/
def JniState.alloc (s : JniState) (n : NativeInputChannel) : Nat × JniState :=
  (s.nextPtr,
   { s with heap := fun q => if q = s.nextPtr then some n else s.heap q,
            nextPtr := s.nextPtr + 1 })

/-- `jniThrowRuntimeException`: records the pending Java exception; the
native function continues executing afterwards. -/
def JniState.throwRuntime (s : JniState) (message : String) : JniState :=
  { s with pendingException := some message }

/-- Well-formed states: the allocator never hands out the null pointer,
and every live object sits below the allocation cursor. -/
def JniState.WF (s : JniState) : Prop :=
  1 ≤ s.nextPtr ∧ ∀ q, s.nextPtr ≤ q → s.heap q = none

/-- `android_view_InputChannel_nativeDispose`: resolve the pointer; when
non-null, invoke and remove the dispose callback. The channel reference
itself is not touched. -/
def android_view_InputChannel_nativeDispose (s : JniState) (channel : Nat) : JniState :=
  match reinterpretCast s channel with
  | none => s
  | some n =>
      let r := n.invokeAndRemoveDisposeCallback
      let s2 := s.update channel r.1
      { s2 with hookLog := s2.hookLog ++ r.2 }

/-- `android_view_InputChannel_setDisposeCallback` (the C++-level entry
used by other native components, reached through the Java object's `mPtr`
field): no-op plus an `ALOGW` diagnostic (the returned `Bool`) when the
reference does not resolve to an initialized native object; otherwise
overwrite the callback slot. -/
def android_view_InputChannel_setDisposeCallback (s : JniState) (objPtr : Nat)
    (callback : Nat) (data : Nat) : JniState × Bool :=
  match reinterpretCast s objPtr with
  | none => (s, true)
  | some n => (s.update objPtr (n.setDisposeCallback callback data), false)

/-- `InputChannel_nativeDestroy` (the finalizer entry point handed to the
managed runtime): `delete` the native object if the raw pointer is
non-null, freeing its storage and dropping its channel reference. -/
def InputChannel_nativeDestroy (s : JniState) (rawInputChannel : Nat) : JniState :=
  if rawInputChannel = 0 then s
  else { s with heap := fun q => if q = rawInputChannel then none else s.heap q }

/-- `android_view_InputChannel_nativeGetName`: null reference yields null
(absent); otherwise the wrapped channel's name. (Dereferencing a handle
whose channel is null would be undefined behaviour in the source; the
model yields `none` there.) -/
def android_view_InputChannel_nativeGetName (s : JniState) (channel : Nat) : Option String :=
  match reinterpretCast s channel with
  | none => none
  | some n => n.mInputChannel.map (fun c => c.name)

/-- `android_view_InputChannel_nativeGetToken`: null reference yields `0`
(null `jobject`, modelled `none`); otherwise the Java object for the
channel's connection token. -/
def android_view_InputChannel_nativeGetToken (s : JniState) (channel : Nat) : Option Nat :=
  match reinterpretCast s channel with
  | none => none
  | some n => n.mInputChannel.map (fun c => c.token)

/-- One datum inside a `Parcel`. The parcel proper is an untyped byte
stream; the model keeps the two shapes this layer writes: a 32-bit
integer, and the Channel Primitive's own payload (name, transport
descriptor, identity token — written by `InputChannel::write`). -/
inductive ParcelDatum where
  | int32 (v : Int)
  | channelPayload (name : String) (fd : Nat) (token : Nat)
deriving DecidableEq, Repr

/-- The serialization container. Writes append at the back; reads consume
from the front (the read cursor is represented by the consumed prefix). -/
structure Parcel where
  data : List ParcelDatum
deriving DecidableEq, Repr

/-- `Parcel::writeInt32`. -/
def Parcel.writeInt32 (p : Parcel) (v : Int) : Parcel :=
  ⟨p.data ++ [ParcelDatum.int32 v]⟩

/-- `Parcel::readInt32`: next datum if it is an int32, else `0` (Android's
`readInt32` yields `0` when no data is available). -/
def Parcel.readInt32 (p : Parcel) : Int × Parcel :=
  match p.data with
  | ParcelDatum.int32 v :: rest => (v, ⟨rest⟩)
  | _ => (0, p)

/-- Modelled from the spec: `InputChannel::write` (external Channel
Primitive codec, not in this repository) appends the channel's own wire
representation — name, transport-resource descriptor, identity token. -/
def InputChannel.write (c : InputChannel) (p : Parcel) : Parcel :=
  ⟨p.data ++ [ParcelDatum.channelPayload c.name c.fd c.token]⟩

/-- Modelled from the spec: `InputChannel::read` (external Channel
Primitive codec, not in this repository) decodes the payload its `write`
produced, reconstructing a channel with the same name and identity token
(the descriptor may be an OS-level duplicate; the model keeps the stored
one). On malformed input it still produces a channel object. -/
def InputChannel.read (p : Parcel) : InputChannel × Parcel :=
  match p.data with
  | ParcelDatum.channelPayload name fd token :: rest => (⟨name, token, fd⟩, ⟨rest⟩)
  | _ => (⟨"", 0, 0⟩, p)

/-- Modelled from the spec: `InputChannel::dup` (external) produces an
independent duplicate sharing the name and identity token, with a fresh
transport descriptor, or fails (null) when the OS-level duplicate fails.
The OS outcome is supplied as an oracle: `some fd` for success with that
descriptor, `none` for failure. -/
def InputChannel.dup (c : InputChannel) (oracle : Option Nat) : Option InputChannel :=
  oracle.map (fun fd => ⟨c.name, c.token, fd⟩)

/-- Stand-in for libc `strerror` (external): some string naming the error
number. -/
def strerror (errnum : Int) : String :=
  "errno " ++ toString errnum

/-- `android_view_InputChannel_nativeReadFromParcel`: null parcel yields
`0`; otherwise read the int32 presence flag; when nonzero, decode the
channel payload and wrap it in a freshly allocated native handle, else
return `0` with nothing further read. Returns (reference, state, parcel
after reading). -/
def android_view_InputChannel_nativeReadFromParcel (s : JniState)
    (parcelObj : Option Parcel) : Nat × JniState × Option Parcel :=
  match parcelObj with
  | none => (0, s, none)
  | some parcel =>
      let r := parcel.readInt32
      if r.1 ≠ 0 then
        let d := InputChannel.read r.2
        let a := s.alloc (NativeInputChannel.create (some d.1))
        (a.1, a.2, some d.2)
      else
        (0, s, some r.2)

/-- `android_view_InputChannel_nativeWriteToParcel`: null parcel logs and
writes nothing; null reference writes only the int32 flag `0`; a live
handle writes flag `1` followed by the channel's own encoding.
(A live handle with a null channel would dereference null in the source —
undefined behaviour; the model stops after the flag and no claim reaches
it.) Returns the parcel after writing. -/
def android_view_InputChannel_nativeWriteToParcel (s : JniState)
    (parcelObj : Option Parcel) (channel : Nat) : Option Parcel :=
  match parcelObj with
  | none => none
  | some parcel =>
      match reinterpretCast s channel with
      | none => some (parcel.writeInt32 0)
      | some n =>
          match n.mInputChannel with
          | some c => some (InputChannel.write c (parcel.writeInt32 1))
          | none => some (parcel.writeInt32 1)

/-- `android_view_InputChannel_nativeDup`: null reference or null channel
throw and return `0`. Otherwise ask the channel for a duplicate; on
failure the source throws the diagnostic exception naming the channel but
then falls through — unlike the two guard branches there is no
`return 0` — so it still allocates a `NativeInputChannel` around the null
duplicate and returns that nonzero pointer. On success it wraps the
duplicate in a fresh handle. -/
def android_view_InputChannel_nativeDup (s : JniState) (channel : Nat)
    (dupOracle : Option Nat) : Nat × JniState :=
  match reinterpretCast s channel with
  | none => (0, s.throwRuntime "InputChannel has no valid NativeInputChannel")
  | some n =>
      match n.mInputChannel with
      | none => (0, s.throwRuntime "NativeInputChannel has no corresponding InputChannel")
      | some c =>
          let dupInputChannel := c.dup dupOracle
          let s2 :=
            match dupInputChannel with
            | none =>
                s.throwRuntime ("Could not duplicate input channel " ++ c.name)
            | some _ => s
          let a := s2.alloc (NativeInputChannel.create dupInputChannel)
          (a.1, a.2)

/-- The OS-level outcome of one `openInputChannelPair` call plus the
managed runtime's array allocation, supplied as an oracle. -/
structure PairOracle where
  status : Int
  serverFd : Nat
  clientFd : Nat
  serverToken : Nat
  clientToken : Nat
  arrayAllocOk : Bool
deriving DecidableEq, Repr

/-- Modelled from the spec: `InputChannel::openInputChannelPair`
(external) — on success (status `0`) produces two freshly connected ends
that both share the given name; on failure returns the nonzero status and
sets no channels. -/
def InputChannel.openInputChannelPair (name : String) (o : PairOracle) :
    Except Int (InputChannel × InputChannel) :=
  if o.status = 0 then
    Except.ok (⟨name, o.serverToken, o.serverFd⟩, ⟨name, o.clientToken, o.clientFd⟩)
  else
    Except.error o.status

/-- `android_view_InputChannel_createInputChannel`: wrap a channel in a
freshly allocated native handle and release the pointer to the caller. -/
def android_view_InputChannel_createInputChannel (s : JniState)
    (inputChannel : InputChannel) : Nat × JniState :=
  s.alloc (NativeInputChannel.create (some inputChannel))

/-- `android_view_InputChannel_nativeOpenInputChannelPair`: open the pair;
on transport failure throw the formatted runtime exception and return
null. Then allocate the result array (`NewLongArray`; failure returns
null before any handle is created), create the two handles with the
source's `ExceptionCheck` guards in between, and return both references. -/
def android_view_InputChannel_nativeOpenInputChannelPair (s : JniState)
    (name : String) (o : PairOracle) : Option (Nat × Nat) × JniState :=
  match InputChannel.openInputChannelPair name o with
  | Except.error result =>
      let message := "Could not open input channel pair : " ++ strerror (-result)
      (none, s.throwRuntime message)
  | Except.ok channels =>
      if o.arrayAllocOk then
        let a0 := android_view_InputChannel_createInputChannel s channels.1
        if (a0.2.pendingException).isSome then (none, a0.2)
        else
          let a1 := android_view_InputChannel_createInputChannel a0.2 channels.2
          if (a1.2.pendingException).isSome then (none, a1.2)
          else (some (a0.1, a1.1), a1.2)
      else
        (none, s)

/-! ### Basic lemmas about the heap -/

theorem reinterpretCast_ne_zero {s : JniState} {p : Nat} {n : NativeInputChannel}
    (h : reinterpretCast s p = some n) : p ≠ 0 := by
  intro h0
  rw [h0] at h
  simp [reinterpretCast] at h

theorem reinterpretCast_eq_heap {s : JniState} {p : Nat} (hp : p ≠ 0) :
    reinterpretCast s p = s.heap p := by
  simp [reinterpretCast, hp]

theorem reinterpretCast_update_self {s : JniState} {p : Nat} (n : NativeInputChannel)
    (hp : p ≠ 0) : reinterpretCast (s.update p n) p = some n := by
  simp [reinterpretCast, JniState.update, hp]

theorem reinterpretCast_update_other {s : JniState} {p q : Nat} (n : NativeInputChannel)
    (hq : q ≠ p) : reinterpretCast (s.update p n) q = reinterpretCast s q := by
  simp [reinterpretCast, JniState.update, hq]

theorem update_update (s : JniState) (p : Nat) (a b : NativeInputChannel) :
    (s.update p a).update p b = s.update p b := by
  rw [JniState.ext_iff]
  refine ⟨?_, rfl, rfl, rfl⟩
  funext q
  by_cases hq : q = p <;> simp [JniState.update, hq]

/-- Sample data used by the concrete witnesses below. -/
def sampleChannel : InputChannel :=
  ⟨"channel", 5, 3⟩

/-- A well-formed state holding one live handle at reference `1`, with a
registered dispose callback `7` and context `9`. -/
def sampleState : JniState :=
  ⟨fun q => if q = 1 then some ⟨some sampleChannel, some 7, 9⟩ else none, 2, none, []⟩

/-- A well-formed state holding one live handle at reference `1`, with no
registered dispose callback. -/
def sampleStateNoHook : JniState :=
  ⟨fun q => if q = 1 then some (NativeInputChannel.create (some sampleChannel)) else none,
   2, none, []⟩

/-- An empty well-formed state. -/
def emptyState : JniState :=
  ⟨fun _ => none, 1, none, []⟩

/-- Disposing a handle whose callback slot is empty changes nothing. -/
theorem dispose_no_callback {s : JniState} {p : Nat} {n : NativeInputChannel}
    (hp : reinterpretCast s p = some n) (hcb : n.mDisposeCallback = none) :
    android_view_InputChannel_nativeDispose s p = s := by
  have hp0 : p ≠ 0 := reinterpretCast_ne_zero hp
  have hheap : s.heap p = some n := by
    rw [← reinterpretCast_eq_heap hp0]; exact hp
  rw [JniState.ext_iff]
  simp only [android_view_InputChannel_nativeDispose, hp,
    NativeInputChannel.invokeAndRemoveDisposeCallback, hcb]
  refine ⟨?_, rfl, rfl, by simp [JniState.update]⟩
  funext q
  by_cases hq : q = p
  · subst hq
    simp [JniState.update, hheap]
  · simp [JniState.update, hq]

/-- Disposing a handle with a registered callback: the invocation is
logged with the pre-clear field values and the slot (callback and
context) is cleared; nothing else changes. -/
theorem dispose_with_callback {s : JniState} {p : Nat} {n : NativeInputChannel} {cb : Nat}
    (hp : reinterpretCast s p = some n) (hcb : n.mDisposeCallback = some cb) :
    android_view_InputChannel_nativeDispose s p
      = { s.update p { n with mDisposeCallback := none, mDisposeData := 0 } with
          hookLog := s.hookLog ++ [⟨cb, n.mInputChannel, n.mDisposeData⟩] } := by
  simp [android_view_InputChannel_nativeDispose, hp,
    NativeInputChannel.invokeAndRemoveDisposeCallback, hcb, JniState.update]

/-- One dispose step preserves the handle's channel field. -/
theorem dispose_preserves_channel {s : JniState} {p : Nat} {n : NativeInputChannel}
    (hp : reinterpretCast s p = some n) :
    ∃ n2, reinterpretCast (android_view_InputChannel_nativeDispose s p) p = some n2
      ∧ n2.mInputChannel = n.mInputChannel := by
  cases hcb : n.mDisposeCallback with
  | none => exact ⟨n, by rw [dispose_no_callback hp hcb]; exact hp, rfl⟩
  | some cb =>
      refine ⟨{ n with mDisposeCallback := none, mDisposeData := 0 }, ?_, rfl⟩
      rw [dispose_with_callback hp hcb]
      exact reinterpretCast_update_self _ (reinterpretCast_ne_zero hp)

/-! ### Claim C1 -/

/-- Claim C1: disposing a handle twice fires the registered hook exactly
once (the log grows by exactly that one invocation across both calls);
the first call clears both the hook slot and its context, and the second
call finds no hook, raises nothing and performs no action at all (the
state is unchanged). -/
theorem dispose_twice_fires_hook_once (s : JniState) (p : Nat)
    (n : NativeInputChannel) (cb : Nat)
    (hp : reinterpretCast s p = some n) (hcb : n.mDisposeCallback = some cb) :
    (android_view_InputChannel_nativeDispose s p).hookLog
        = s.hookLog ++ [⟨cb, n.mInputChannel, n.mDisposeData⟩]
    ∧ reinterpretCast (android_view_InputChannel_nativeDispose s p) p
        = some { n with mDisposeCallback := none, mDisposeData := 0 }
    ∧ android_view_InputChannel_nativeDispose (android_view_InputChannel_nativeDispose s p) p
        = android_view_InputChannel_nativeDispose s p := by
  have hp0 : p ≠ 0 := reinterpretCast_ne_zero hp
  have hstep := dispose_with_callback hp hcb
  refine ⟨by rw [hstep], ?_, ?_⟩
  · rw [hstep]
    exact reinterpretCast_update_self _ hp0
  · have hcast : reinterpretCast (android_view_InputChannel_nativeDispose s p) p
        = some { n with mDisposeCallback := none, mDisposeData := 0 } := by
      rw [hstep]
      exact reinterpretCast_update_self _ hp0
    exact dispose_no_callback hcast rfl

/-- Witness for C1 at the concrete state `sampleState`. -/
theorem dispose_twice_fires_hook_once_witness :
    reinterpretCast sampleState 1 = some ⟨some sampleChannel, some 7, 9⟩
    ∧ (⟨some sampleChannel, some 7, 9⟩ : NativeInputChannel).mDisposeCallback = some 7
    ∧ ((android_view_InputChannel_nativeDispose sampleState 1).hookLog
        = sampleState.hookLog ++ [⟨7, some sampleChannel, 9⟩]
      ∧ reinterpretCast (android_view_InputChannel_nativeDispose sampleState 1) 1
        = some ⟨some sampleChannel, none, 0⟩
      ∧ android_view_InputChannel_nativeDispose
           (android_view_InputChannel_nativeDispose sampleState 1) 1
        = android_view_InputChannel_nativeDispose sampleState 1) :=
  ⟨rfl, rfl, dispose_twice_fires_hook_once sampleState 1 ⟨some sampleChannel, some 7, 9⟩ 7 rfl rfl⟩

/-! ### Claim C2 -/

/-- Claim C2 counterexample: the claim's final step does not happen.
At the concrete state `sampleState` (live handle at reference `1`,
channel `sampleChannel`, hook registered), after the first dispose the
handle still holds its Channel Primitive reference and subsequent access
still reports the live channel's name and token — the handle does not
transition to a released/Disposed state. -/
theorem dispose_release_counterexample :
    (reinterpretCast (android_view_InputChannel_nativeDispose sampleState 1) 1).map
        NativeInputChannel.mInputChannel = some (some sampleChannel)
    ∧ android_view_InputChannel_nativeGetName
        (android_view_InputChannel_nativeDispose sampleState 1) 1 = some "channel"
    ∧ android_view_InputChannel_nativeGetToken
        (android_view_InputChannel_nativeDispose sampleState 1) 1 = some 5 := by
  refine ⟨rfl, rfl, rfl⟩

/-- Claim C2 (amended): on the first dispose of a live handle with a
registered hook, the hook is invoked synchronously and is handed the
still-valid Channel Primitive reference, and then the hook slot (callback
and context) is cleared. Dispose does not release the Channel Primitive
reference: the handle keeps its channel, and subsequent access still
reports the channel's name (release happens only through the finalizer
entry point). -/
theorem dispose_hook_order (s : JniState) (p : Nat) (n : NativeInputChannel)
    (c : InputChannel) (cb : Nat) (hp : reinterpretCast s p = some n)
    (hc : n.mInputChannel = some c) (hcb : n.mDisposeCallback = some cb) :
    (android_view_InputChannel_nativeDispose s p).hookLog
        = s.hookLog ++ [⟨cb, some c, n.mDisposeData⟩]
    ∧ reinterpretCast (android_view_InputChannel_nativeDispose s p) p
        = some ⟨some c, none, 0⟩
    ∧ android_view_InputChannel_nativeGetName
        (android_view_InputChannel_nativeDispose s p) p = some c.name := by
  have hp0 : p ≠ 0 := reinterpretCast_ne_zero hp
  have hstep := dispose_with_callback hp hcb
  have hcast : reinterpretCast (android_view_InputChannel_nativeDispose s p) p
      = some ⟨some c, none, 0⟩ := by
    rw [hstep]
    simp [reinterpretCast, JniState.update, hp0, hc]
  refine ⟨by rw [hstep, hc], hcast, ?_⟩
  simp [android_view_InputChannel_nativeGetName, hcast]

/-- Witness for the amended C2 at the concrete state `sampleState`. -/
theorem dispose_hook_order_witness :
    reinterpretCast sampleState 1 = some ⟨some sampleChannel, some 7, 9⟩
    ∧ (⟨some sampleChannel, some 7, 9⟩ : NativeInputChannel).mInputChannel = some sampleChannel
    ∧ (⟨some sampleChannel, some 7, 9⟩ : NativeInputChannel).mDisposeCallback = some 7
    ∧ ((android_view_InputChannel_nativeDispose sampleState 1).hookLog
        = sampleState.hookLog ++ [⟨7, some sampleChannel, 9⟩]
      ∧ reinterpretCast (android_view_InputChannel_nativeDispose sampleState 1) 1
        = some ⟨some sampleChannel, none, 0⟩
      ∧ android_view_InputChannel_nativeGetName
          (android_view_InputChannel_nativeDispose sampleState 1) 1 = some sampleChannel.name) :=
  ⟨rfl, rfl, rfl,
    dispose_hook_order sampleState 1 ⟨some sampleChannel, some 7, 9⟩ sampleChannel 7 rfl rfl rfl⟩

/-! ### Claim C10 -/

/-- `k` successive calls of `nativeDispose` on the same reference. -/
def disposeIter (s : JniState) (p : Nat) : Nat → JniState
  | 0 => s
  | k + 1 => android_view_InputChannel_nativeDispose (disposeIter s p k) p

/-- Iterated dispose keeps the handle live with its channel unchanged. -/
theorem disposeIter_preserves_channel {s : JniState} {p : Nat} {n : NativeInputChannel}
    (hp : reinterpretCast s p = some n) (k : Nat) :
    ∃ n2, reinterpretCast (disposeIter s p k) p = some n2
      ∧ n2.mInputChannel = n.mInputChannel := by
  induction k with
  | zero => exact ⟨n, hp, rfl⟩
  | succ k ih =>
      obtain ⟨n2, hcast, hch⟩ := ih
      obtain ⟨n3, hcast3, hch3⟩ := dispose_preserves_channel hcast
      exact ⟨n3, hcast3, by rw [hch3, hch]⟩

/-- Claim C10: dispose only ever touches the hook slot — after any number
of dispose calls on a live reference the handle still holds its original
non-null channel, and get-name / get-token still report that channel's
name and token; the handle's storage (and with it the channel reference)
is removed only by the finalizer entry point `InputChannel_nativeDestroy`,
which deletes the heap entry. -/
theorem dispose_frame_only_hook_slot (s : JniState) (p : Nat) (n : NativeInputChannel)
    (c : InputChannel) (k : Nat)
    (hp : reinterpretCast s p = some n) (hc : n.mInputChannel = some c) :
    (∃ n2, reinterpretCast (disposeIter s p k) p = some n2 ∧ n2.mInputChannel = some c)
    ∧ android_view_InputChannel_nativeGetName (disposeIter s p k) p = some c.name
    ∧ android_view_InputChannel_nativeGetToken (disposeIter s p k) p = some c.token
    ∧ (InputChannel_nativeDestroy (disposeIter s p k) p).heap p = none := by
  have hp0 : p ≠ 0 := reinterpretCast_ne_zero hp
  obtain ⟨n2, hcast, hch⟩ := disposeIter_preserves_channel hp k
  rw [hc] at hch
  refine ⟨⟨n2, hcast, hch⟩, ?_, ?_, ?_⟩
  · simp [android_view_InputChannel_nativeGetName, hcast, hch]
  · simp [android_view_InputChannel_nativeGetToken, hcast, hch]
  · simp [InputChannel_nativeDestroy, hp0]

/-- Witness for C10 at the concrete state `sampleState`, with three
dispose calls. -/
theorem dispose_frame_only_hook_slot_witness :
    reinterpretCast sampleState 1 = some ⟨some sampleChannel, some 7, 9⟩
    ∧ (⟨some sampleChannel, some 7, 9⟩ : NativeInputChannel).mInputChannel = some sampleChannel
    ∧ ((∃ n2, reinterpretCast (disposeIter sampleState 1 3) 1 = some n2
          ∧ n2.mInputChannel = some sampleChannel)
      ∧ android_view_InputChannel_nativeGetName (disposeIter sampleState 1 3) 1
          = some sampleChannel.name
      ∧ android_view_InputChannel_nativeGetToken (disposeIter sampleState 1 3) 1
          = some sampleChannel.token
      ∧ (InputChannel_nativeDestroy (disposeIter sampleState 1 3) 1).heap 1 = none) :=
  ⟨rfl, rfl,
    dispose_frame_only_hook_slot sampleState 1 ⟨some sampleChannel, some 7, 9⟩ sampleChannel 3
      rfl rfl⟩

/-! ### Claim C4 -/

/-- Claim C4: serialize writes the int32 presence flag first — an absent
reference (0) writes only the flag with value 0, a present handle writes
flag 1 followed by the Channel Primitive's own encoding; deserialize
reads the flag first and on flag 0 returns the absent reference 0 with no
error and no further reads (the state, including the pending-exception
slot, is untouched); hence deserialize(serialize(absent)) yields absent. -/
theorem wire_codec_presence_flag (s s2 : JniState) (parcel : Parcel) (p : Nat)
    (n : NativeInputChannel) (c : InputChannel) (rest : List ParcelDatum)
    (hn : reinterpretCast s p = some n) (hc : n.mInputChannel = some c) :
    android_view_InputChannel_nativeWriteToParcel s (some parcel) 0
        = some ⟨parcel.data ++ [ParcelDatum.int32 0]⟩
    ∧ android_view_InputChannel_nativeWriteToParcel s (some parcel) p
        = some ⟨(parcel.data ++ [ParcelDatum.int32 1])
            ++ [ParcelDatum.channelPayload c.name c.fd c.token]⟩
    ∧ android_view_InputChannel_nativeReadFromParcel s2
        (some ⟨ParcelDatum.int32 0 :: rest⟩) = (0, s2, some ⟨rest⟩)
    ∧ android_view_InputChannel_nativeReadFromParcel s2
        (android_view_InputChannel_nativeWriteToParcel s (some ⟨[]⟩) 0)
        = (0, s2, some ⟨[]⟩) := by
  refine ⟨?_, ?_, ?_, ?_⟩
  · simp [android_view_InputChannel_nativeWriteToParcel, reinterpretCast, Parcel.writeInt32]
  · simp [android_view_InputChannel_nativeWriteToParcel, hn, hc, Parcel.writeInt32,
      InputChannel.write]
  · simp [android_view_InputChannel_nativeReadFromParcel, Parcel.readInt32]
  · simp [android_view_InputChannel_nativeWriteToParcel, reinterpretCast, Parcel.writeInt32,
      android_view_InputChannel_nativeReadFromParcel, Parcel.readInt32]

/-- Witness for C4 at the concrete state `sampleState` with an empty
parcel. -/
theorem wire_codec_presence_flag_witness :
    reinterpretCast sampleState 1 = some ⟨some sampleChannel, some 7, 9⟩
    ∧ (⟨some sampleChannel, some 7, 9⟩ : NativeInputChannel).mInputChannel = some sampleChannel
    ∧ (android_view_InputChannel_nativeWriteToParcel sampleState (some ⟨[]⟩) 0
        = some ⟨[ParcelDatum.int32 0]⟩
      ∧ android_view_InputChannel_nativeWriteToParcel sampleState (some ⟨[]⟩) 1
        = some ⟨[ParcelDatum.int32 1] ++ [ParcelDatum.channelPayload "channel" 3 5]⟩
      ∧ android_view_InputChannel_nativeReadFromParcel emptyState
          (some ⟨ParcelDatum.int32 0 :: []⟩) = (0, emptyState, some ⟨[]⟩)
      ∧ android_view_InputChannel_nativeReadFromParcel emptyState
          (android_view_InputChannel_nativeWriteToParcel sampleState (some ⟨[]⟩) 0)
        = (0, emptyState, some ⟨[]⟩)) :=
  ⟨rfl, rfl,
    wire_codec_presence_flag sampleState emptyState ⟨[]⟩ 1
      ⟨some sampleChannel, some 7, 9⟩ sampleChannel [] rfl rfl⟩

/-! ### Claim C5 -/

/-- Claim C5: serializing a valid (live, non-null channel) handle into an
empty container and deserializing in any well-formed state yields a
freshly allocated, nonzero reference to an Active handle whose name and
identity token equal the original's (the external Channel Primitive
codec is modelled as inverting its own encoding, as the claim assumes). -/
theorem wire_codec_round_trip (s s2 : JniState) (p : Nat)
    (n : NativeInputChannel) (c : InputChannel)
    (hn : reinterpretCast s p = some n) (hc : n.mInputChannel = some c)
    (hwf : 1 ≤ s2.nextPtr) :
    (android_view_InputChannel_nativeReadFromParcel s2
        (android_view_InputChannel_nativeWriteToParcel s (some ⟨[]⟩) p)).1 = s2.nextPtr
    ∧ (android_view_InputChannel_nativeReadFromParcel s2
        (android_view_InputChannel_nativeWriteToParcel s (some ⟨[]⟩) p)).1 ≠ 0
    ∧ android_view_InputChannel_nativeGetName
        (android_view_InputChannel_nativeReadFromParcel s2
          (android_view_InputChannel_nativeWriteToParcel s (some ⟨[]⟩) p)).2.1
        (android_view_InputChannel_nativeReadFromParcel s2
          (android_view_InputChannel_nativeWriteToParcel s (some ⟨[]⟩) p)).1
      = some c.name
    ∧ android_view_InputChannel_nativeGetToken
        (android_view_InputChannel_nativeReadFromParcel s2
          (android_view_InputChannel_nativeWriteToParcel s (some ⟨[]⟩) p)).2.1
        (android_view_InputChannel_nativeReadFromParcel s2
          (android_view_InputChannel_nativeWriteToParcel s (some ⟨[]⟩) p)).1
      = some c.token
    ∧ android_view_InputChannel_nativeGetName s p = some c.name
    ∧ android_view_InputChannel_nativeGetToken s p = some c.token := by
  have hwrite : android_view_InputChannel_nativeWriteToParcel s (some ⟨[]⟩) p
      = some ⟨[ParcelDatum.int32 1, ParcelDatum.channelPayload c.name c.fd c.token]⟩ := by
    simp [android_view_InputChannel_nativeWriteToParcel, hn, hc, Parcel.writeInt32,
      InputChannel.write]
  have hptr : s2.nextPtr ≠ 0 := by omega
  rw [hwrite]
  refine ⟨?_, ?_, ?_, ?_, ?_, ?_⟩
  · simp [android_view_InputChannel_nativeReadFromParcel, Parcel.readInt32,
      InputChannel.read, JniState.alloc]
  · simp [android_view_InputChannel_nativeReadFromParcel, Parcel.readInt32,
      InputChannel.read, JniState.alloc, hptr]
  · simp [android_view_InputChannel_nativeReadFromParcel, Parcel.readInt32,
      InputChannel.read, JniState.alloc, android_view_InputChannel_nativeGetName,
      reinterpretCast, hptr, NativeInputChannel.create]
  · simp [android_view_InputChannel_nativeReadFromParcel, Parcel.readInt32,
      InputChannel.read, JniState.alloc, android_view_InputChannel_nativeGetToken,
      reinterpretCast, hptr, NativeInputChannel.create]
  · simp [android_view_InputChannel_nativeGetName, hn, hc]
  · simp [android_view_InputChannel_nativeGetToken, hn, hc]

/-- Witness for C5: round-trip the handle of `sampleState` through an
empty parcel, deserializing into `emptyState`. -/
theorem wire_codec_round_trip_witness :
    reinterpretCast sampleState 1 = some ⟨some sampleChannel, some 7, 9⟩
    ∧ (⟨some sampleChannel, some 7, 9⟩ : NativeInputChannel).mInputChannel = some sampleChannel
    ∧ 1 ≤ emptyState.nextPtr
    ∧ ((android_view_InputChannel_nativeReadFromParcel emptyState
          (android_view_InputChannel_nativeWriteToParcel sampleState (some ⟨[]⟩) 1)).1
        = emptyState.nextPtr
      ∧ (android_view_InputChannel_nativeReadFromParcel emptyState
          (android_view_InputChannel_nativeWriteToParcel sampleState (some ⟨[]⟩) 1)).1 ≠ 0
      ∧ android_view_InputChannel_nativeGetName
          (android_view_InputChannel_nativeReadFromParcel emptyState
            (android_view_InputChannel_nativeWriteToParcel sampleState (some ⟨[]⟩) 1)).2.1
          (android_view_InputChannel_nativeReadFromParcel emptyState
            (android_view_InputChannel_nativeWriteToParcel sampleState (some ⟨[]⟩) 1)).1
        = some sampleChannel.name
      ∧ android_view_InputChannel_nativeGetToken
          (android_view_InputChannel_nativeReadFromParcel emptyState
            (android_view_InputChannel_nativeWriteToParcel sampleState (some ⟨[]⟩) 1)).2.1
          (android_view_InputChannel_nativeReadFromParcel emptyState
            (android_view_InputChannel_nativeWriteToParcel sampleState (some ⟨[]⟩) 1)).1
        = some sampleChannel.token
      ∧ android_view_InputChannel_nativeGetName sampleState 1 = some sampleChannel.name
      ∧ android_view_InputChannel_nativeGetToken sampleState 1 = some sampleChannel.token) :=
  ⟨rfl, rfl, Nat.le_refl 1,
    wire_codec_round_trip sampleState emptyState 1 ⟨some sampleChannel, some 7, 9⟩
      sampleChannel rfl rfl (Nat.le_refl 1)⟩

/-! ### Claim C8 -/

/-- Claim C8: on the absent reference 0, get-name returns absent (null
string) without raising, get-token returns absent (null object) without
raising, and duplicate throws the invalid-handle runtime exception
("InputChannel has no valid NativeInputChannel") and yields reference 0,
in every state and for every OS duplicate outcome. -/
theorem absent_reference_access (s : JniState) (dupOracle : Option Nat) :
    android_view_InputChannel_nativeGetName s 0 = none
    ∧ android_view_InputChannel_nativeGetToken s 0 = none
    ∧ (android_view_InputChannel_nativeDup s 0 dupOracle).1 = 0
    ∧ (android_view_InputChannel_nativeDup s 0 dupOracle).2.pendingException
        = some "InputChannel has no valid NativeInputChannel" := by
  refine ⟨?_, ?_, ?_, ?_⟩
  · simp [android_view_InputChannel_nativeGetName, reinterpretCast]
  · simp [android_view_InputChannel_nativeGetToken, reinterpretCast]
  · simp [android_view_InputChannel_nativeDup, reinterpretCast]
  · simp [android_view_InputChannel_nativeDup, reinterpretCast, JniState.throwRuntime]

/-! ### Claim C9 -/

/-- Claim C9: registering a disposal hook twice on the same live handle
leaves exactly the second callback and context in the (single) hook slot
— last registration wins, and the slot holds at most one hook at any
time; registering on a reference that does not resolve to an initialized
native object changes nothing and only emits the diagnostic warning (no
exception is raised). -/
theorem set_dispose_callback_semantics (s : JniState) (p q : Nat)
    (n : NativeInputChannel) (cb1 d1 cb2 d2 : Nat)
    (hp : reinterpretCast s p = some n) (hq : reinterpretCast s q = none) :
    android_view_InputChannel_setDisposeCallback
        (android_view_InputChannel_setDisposeCallback s p cb1 d1).1 p cb2 d2
      = (s.update p { n with mDisposeCallback := some cb2, mDisposeData := d2 }, false)
    ∧ (android_view_InputChannel_setDisposeCallback s p cb1 d1).2 = false
    ∧ android_view_InputChannel_setDisposeCallback s q cb1 d1 = (s, true) := by
  have hp0 : p ≠ 0 := reinterpretCast_ne_zero hp
  have h1 : android_view_InputChannel_setDisposeCallback s p cb1 d1
      = (s.update p (n.setDisposeCallback cb1 d1), false) := by
    simp [android_view_InputChannel_setDisposeCallback, hp]
  refine ⟨?_, by rw [h1], ?_⟩
  · rw [h1]
    have hcast : reinterpretCast (s.update p (n.setDisposeCallback cb1 d1)) p
        = some (n.setDisposeCallback cb1 d1) := reinterpretCast_update_self _ hp0
    simp only [android_view_InputChannel_setDisposeCallback, hcast]
    rw [update_update]
    simp [NativeInputChannel.setDisposeCallback]
  · simp [android_view_InputChannel_setDisposeCallback, hq]

/-- Witness for C9 at `sampleState`: live handle at reference `1`,
unresolved reference `0`. -/
theorem set_dispose_callback_semantics_witness :
    reinterpretCast sampleState 1 = some ⟨some sampleChannel, some 7, 9⟩
    ∧ reinterpretCast sampleState 0 = none
    ∧ (android_view_InputChannel_setDisposeCallback
          (android_view_InputChannel_setDisposeCallback sampleState 1 21 22).1 1 23 24
        = (sampleState.update 1 ⟨some sampleChannel, some 23, 24⟩, false)
      ∧ (android_view_InputChannel_setDisposeCallback sampleState 1 21 22).2 = false
      ∧ android_view_InputChannel_setDisposeCallback sampleState 0 21 22
        = (sampleState, true)) :=
  ⟨rfl, rfl,
    set_dispose_callback_semantics sampleState 1 0 ⟨some sampleChannel, some 7, 9⟩
      21 22 23 24 rfl rfl⟩

/-! ### Claim C3 -/

/-- Claim C3 (code bug, evaluated at the failing input): at
`sampleStateNoHook` (one live handle at reference `1` wrapping
`sampleChannel`) with the OS duplicate failing, `nativeDup` hands back
the nonzero reference `2`, and that reference resolves to a handle whose
channel is null — the boundary invariant is violated. (The source throws
the diagnostic exception on this path but, unlike the two guard branches
above it, is missing `return 0`, so it still allocates and returns the
null-channel handle.) -/
theorem dup_failure_exposes_null_channel_handle :
    (android_view_InputChannel_nativeDup sampleStateNoHook 1 none).1 = 2
    ∧ reinterpretCast (android_view_InputChannel_nativeDup sampleStateNoHook 1 none).2 2
        = some (NativeInputChannel.create none)
    ∧ (NativeInputChannel.create none).mInputChannel = none
    ∧ (android_view_InputChannel_nativeDup sampleStateNoHook 1 none).2.pendingException
        = some "Could not duplicate input channel channel" := by
  refine ⟨rfl, rfl, rfl, rfl⟩

/-! ### Claim C6 -/

/-- Claim C6 (code bug, evaluated at the failing input): at `sampleState`
with the OS duplicate failing, `nativeDup` does raise the duplication
error naming the original channel, and the original handle at reference
`1` is left fully unaffected (still live, channel and hook unchanged) —
but, contrary to the claim's last part, a partially-constructed duplicate
IS returned: the nonzero reference `2` to a handle wrapping a null
channel. -/
theorem dup_failure_returns_partial_handle :
    (android_view_InputChannel_nativeDup sampleState 1 none).2.pendingException
        = some "Could not duplicate input channel channel"
    ∧ reinterpretCast (android_view_InputChannel_nativeDup sampleState 1 none).2 1
        = some ⟨some sampleChannel, some 7, 9⟩
    ∧ android_view_InputChannel_nativeGetName
        (android_view_InputChannel_nativeDup sampleState 1 none).2 1 = some "channel"
    ∧ (android_view_InputChannel_nativeDup sampleState 1 none).1 = 2
    ∧ reinterpretCast (android_view_InputChannel_nativeDup sampleState 1 none).2 2
        = some ⟨none, none, 0⟩ := by
  refine ⟨rfl, rfl, rfl, rfl, rfl⟩

/-! ### Claim C7 -/

/-- Claim C7: opening a pair either yields two distinct nonzero
references, each a live handle wrapping one end of the freshly connected
pair, both reporting the input name, with no exception raised — or the
transport cannot be established and the call raises the runtime
exception carrying the underlying system error text and returns no
references at all, leaving the heap untouched. Never exactly one handle.
(Hypotheses: no exception pending on entry, a well-formed allocator, and
the managed runtime's result-array allocation succeeding.) -/
theorem open_pair_all_or_nothing (s : JniState) (name : String) (o : PairOracle)
    (hex : s.pendingException = none) (hwf : 1 ≤ s.nextPtr)
    (hok : o.arrayAllocOk = true) :
    (o.status ≠ 0
      ∧ (android_view_InputChannel_nativeOpenInputChannelPair s name o).1 = none
      ∧ (android_view_InputChannel_nativeOpenInputChannelPair s name o).2.pendingException
          = some ("Could not open input channel pair : " ++ strerror (-o.status))
      ∧ (android_view_InputChannel_nativeOpenInputChannelPair s name o).2.heap = s.heap)
    ∨ (o.status = 0
      ∧ (android_view_InputChannel_nativeOpenInputChannelPair s name o).1
          = some (s.nextPtr, s.nextPtr + 1)
      ∧ s.nextPtr ≠ 0 ∧ s.nextPtr + 1 ≠ 0 ∧ s.nextPtr ≠ s.nextPtr + 1
      ∧ (android_view_InputChannel_nativeOpenInputChannelPair s name o).2.pendingException
          = none
      ∧ reinterpretCast (android_view_InputChannel_nativeOpenInputChannelPair s name o).2
          s.nextPtr
          = some (NativeInputChannel.create (some ⟨name, o.serverToken, o.serverFd⟩))
      ∧ reinterpretCast (android_view_InputChannel_nativeOpenInputChannelPair s name o).2
          (s.nextPtr + 1)
          = some (NativeInputChannel.create (some ⟨name, o.clientToken, o.clientFd⟩))
      ∧ android_view_InputChannel_nativeGetName
          (android_view_InputChannel_nativeOpenInputChannelPair s name o).2 s.nextPtr
          = some name
      ∧ android_view_InputChannel_nativeGetName
          (android_view_InputChannel_nativeOpenInputChannelPair s name o).2 (s.nextPtr + 1)
          = some name) := by
  have h0 : s.nextPtr ≠ 0 := by omega
  have h1 : s.nextPtr + 1 ≠ 0 := by omega
  have h2 : s.nextPtr ≠ s.nextPtr + 1 := by omega
  by_cases hst : o.status = 0
  · right
    refine ⟨hst, ?_, ?_, h1, h2, ?_, ?_, ?_, ?_, ?_⟩ <;>
      simp [android_view_InputChannel_nativeOpenInputChannelPair,
        InputChannel.openInputChannelPair, hst, hok, hex,
        android_view_InputChannel_createInputChannel, JniState.alloc,
        android_view_InputChannel_nativeGetName, reinterpretCast, h0, h1, h2,
        NativeInputChannel.create]
  · left
    refine ⟨hst, ?_, ?_, ?_⟩ <;>
      simp [android_view_InputChannel_nativeOpenInputChannelPair,
        InputChannel.openInputChannelPair, hst, JniState.throwRuntime]

/-- Witness for C7 at `emptyState` with a succeeding transport oracle. -/
theorem open_pair_all_or_nothing_witness :
    emptyState.pendingException = none ∧ 1 ≤ emptyState.nextPtr
    ∧ (PairOracle.mk 0 10 11 100 101 true).arrayAllocOk = true
    ∧ (((PairOracle.mk 0 10 11 100 101 true).status ≠ 0
      ∧ (android_view_InputChannel_nativeOpenInputChannelPair emptyState "pair"
          (PairOracle.mk 0 10 11 100 101 true)).1 = none
      ∧ (android_view_InputChannel_nativeOpenInputChannelPair emptyState "pair"
          (PairOracle.mk 0 10 11 100 101 true)).2.pendingException
          = some ("Could not open input channel pair : "
              ++ strerror (-(PairOracle.mk 0 10 11 100 101 true).status))
      ∧ (android_view_InputChannel_nativeOpenInputChannelPair emptyState "pair"
          (PairOracle.mk 0 10 11 100 101 true)).2.heap = emptyState.heap)
    ∨ ((PairOracle.mk 0 10 11 100 101 true).status = 0
      ∧ (android_view_InputChannel_nativeOpenInputChannelPair emptyState "pair"
          (PairOracle.mk 0 10 11 100 101 true)).1
          = some (emptyState.nextPtr, emptyState.nextPtr + 1)
      ∧ emptyState.nextPtr ≠ 0 ∧ emptyState.nextPtr + 1 ≠ 0
      ∧ emptyState.nextPtr ≠ emptyState.nextPtr + 1
      ∧ (android_view_InputChannel_nativeOpenInputChannelPair emptyState "pair"
          (PairOracle.mk 0 10 11 100 101 true)).2.pendingException = none
      ∧ reinterpretCast (android_view_InputChannel_nativeOpenInputChannelPair emptyState
          "pair" (PairOracle.mk 0 10 11 100 101 true)).2 emptyState.nextPtr
          = some (NativeInputChannel.create (some ⟨"pair", 100, 10⟩))
      ∧ reinterpretCast (android_view_InputChannel_nativeOpenInputChannelPair emptyState
          "pair" (PairOracle.mk 0 10 11 100 101 true)).2 (emptyState.nextPtr + 1)
          = some (NativeInputChannel.create (some ⟨"pair", 101, 11⟩))
      ∧ android_view_InputChannel_nativeGetName
          (android_view_InputChannel_nativeOpenInputChannelPair emptyState "pair"
            (PairOracle.mk 0 10 11 100 101 true)).2 emptyState.nextPtr = some "pair"
      ∧ android_view_InputChannel_nativeGetName
          (android_view_InputChannel_nativeOpenInputChannelPair emptyState "pair"
            (PairOracle.mk 0 10 11 100 101 true)).2 (emptyState.nextPtr + 1)
          = some "pair")) :=
  ⟨rfl, Nat.le_refl 1, rfl,
    open_pair_all_or_nothing emptyState "pair" (PairOracle.mk 0 10 11 100 101 true)
      rfl (Nat.le_refl 1) rfl⟩

end AndroidViewInputChannel
